import Mathlib

/-
Verification development for the jules-scratch/verification UI scripts.

The repository consists of five Playwright scenario scripts:
  verify_final.py, verify_login.py, verify_login_v2.py,
  verify_flow_builder.py, verify_send_message_ui.py.
Each script is a linear sequence of browser actions and assertions, possibly
wrapped in try/finally or try/except blocks, executed inside a
"with sync_playwright() as p:" scope.

The shallow embedding below models:
  - a Step type, one constructor per kind of browser call the scripts make;
  - the generated test identities (name, email, password) as functions of the
    integer second read from the clock (int(time.time()));
  - a small program type Prog with sequencing, resolved branches, try/finally
    and try/except, and an interpreter execP that runs a program against an
    oracle assigning an outcome (success, or an exception) to each fallible
    call, producing the trace of successfully executed steps, the next oracle
    index, and the propagated exception if any.
Runtime nondeterminism (which browser call fails, whether the empty-contacts
state is visible, whether the drag-and-drop bounding boxes are found) is
captured by the oracle and by resolved branch inputs.
-/

/-- One browser interaction, assertion, or observability action performed by a
scenario script; one constructor per kind of Playwright call the five scripts
make. String arguments record the selector/label/url/text the call targets and
the optional explicit timeout in milliseconds where the source passes one. -/
inductive Step where
  | launch
  | newContext
  | newPage
  | goto (url : String)
  | fill (label value : String)
  | click (role name : String)
  | clickSelector (sel : String)
  | clickLabel (label : String)
  | expectUrl (url : String) (timeoutMs : Option Nat)
  | expectUrlStarts (urlPre : String) (timeoutMs : Option Nat)
  | expectVisible (target : String) (timeoutMs : Option Nat)
  | expectNotVisible (target : String) (timeoutMs : Option Nat)
  | waitLoadState (state : String) (timeoutMs : Option Nat)
  | isVisibleCheck (text : String)
  | boundingBox (sel : String)
  | mouseMove
  | mouseDown
  | mouseUp
  | reload
  | collectToasts
  | printMsg (msg : String)
  | printErr (msg : String)
  | screenshot (path : String)
  | closeBrowser
  | stopPlaywright
deriving DecidableEq

/-- A step is fallible when the underlying call can raise (browser interactions
and assertions; assertion timeouts raise). Writes to stdout/stderr and the
implicit stop of the playwright driver at with-scope exit are modelled as
non-failing. -/
def Step.fallible : Step → Bool
  | .printMsg _ => false
  | .printErr _ => false
  | .stopPlaywright => false
  | _ => true

/-- Wait points: the expect assertions and explicit load-state waits, each of
which suspends until its condition holds or its timeout elapses. -/
def Step.isWait : Step → Bool
  | .expectUrl _ _ => true
  | .expectUrlStarts _ _ => true
  | .expectVisible _ _ => true
  | .expectNotVisible _ _ => true
  | .waitLoadState _ _ => true
  | _ => false

/-- Explicit timeout (in milliseconds) carried by a wait point, none when the
source passes no timeout argument and the library default applies. -/
def Step.waitMs : Step → Option Nat
  | .expectUrl _ t => t
  | .expectUrlStarts _ t => t
  | .expectVisible _ t => t
  | .expectNotVisible _ t => t
  | .waitLoadState _ t => t
  | _ => none

/-- Steps that release the browser: the explicit browser.close() call, and the
stop of the playwright driver performed when the with sync_playwright scope is
exited, which closes every browser the driver launched. -/
def Step.closesBrowser : Step → Bool
  | .closeBrowser => true
  | .stopPlaywright => true
  | _ => false

/-- URL targeted by a navigation or navigation-wait step. -/
def Step.navUrl : Step → Option String
  | .goto u => some u
  | .expectUrl u _ => some u
  | .expectUrlStarts u _ => some u
  | _ => none

/-- Path written by a screenshot step. -/
def Step.shotPath : Step → Option String
  | .screenshot p => some p
  | _ => none

/-- Email generated by verify_final.py, verify_login.py and verify_login_v2.py:
the Python f-string "test_user_" followed by the decimal rendering of
unique_id = int(time.time()) followed by "@example.com". Nat.repr is the
decimal representation a Python f-string produces for a nonnegative int. -/
def genEmail (t : Nat) : String :=
  "test_user_" ++ Nat.repr t ++ "@example.com"

/-- Email generated by verify_send_message_ui.py: the Python f-string
"test.user." followed by the decimal rendering of int(time.time()) followed by
"@example.com". -/
def genEmailDot (t : Nat) : String :=
  "test.user." ++ Nat.repr t ++ "@example.com"

/-- A generated test identity: the name, email and password a registration
scenario fills into the register form. -/
structure Identity where
  name : String
  email : String
  password : String
deriving DecidableEq

/-- Identity generated at the top of run_verification in verify_final.py,
verify_login.py and verify_login_v2.py: name and password are literals, the
email carries the timestamp suffix. -/
def mkIdentity (t : Nat) : Identity :=
  { name := "Test User", email := genEmail t, password := "password123" }

/-- Identity used by verify_send_message_ui.py: only the email is bound to a
variable; the name and password literals are filled inline. -/
def mkIdentityDot (t : Nat) : Identity :=
  { name := "Test User", email := genEmailDot t, password := "password123" }

/-- base_url = os.environ.get("BASE_URL", "http://localhost:3000"), the
environment lookup with default performed by verify_final.py, verify_login.py
and verify_login_v2.py. -/
def getBaseUrl (env : String → Option String) : String :=
  (env "BASE_URL").getD "http://localhost:3000"

/-- Program shape of a scenario script: sequencing of steps, a branch whose
condition has been resolved from the run inputs, Python try/finally, Python
try/except (the handler runs on any exception of the body; reraise records
whether the handler ends in a bare raise re-raising the original exception),
and an explicit raise statement. -/
inductive Prog where
  | skip
  | act (s : Step)
  | seq (p q : Prog)
  | branch (c : Bool) (p q : Prog)
  | tryFinally (body cleanup : Prog)
  | tryCatch (body handler : Prog) (reraise : Bool)
  | raiseErr (msg : String)

/-- Straight-line program running the given steps in order. -/
def Prog.acts : List Step → Prog
  | [] => .skip
  | s :: r => .seq (.act s) (Prog.acts r)

/-- All steps occurring in the program text, both branches and handlers
included. -/
def Prog.stepsOf : Prog → List Step
  | .skip => []
  | .act s => [s]
  | .seq p q => p.stepsOf ++ q.stepsOf
  | .branch _ p q => p.stepsOf ++ q.stepsOf
  | .tryFinally p c => p.stepsOf ++ c.stepsOf
  | .tryCatch p h _ => p.stepsOf ++ h.stepsOf
  | .raiseErr _ => []

/-- URLs targeted by the navigation and navigation-wait steps of a program. -/
def Prog.navUrls (p : Prog) : List String :=
  p.stepsOf.filterMap Step.navUrl

/-- Screenshot paths written by a program. -/
def Prog.shotPaths (p : Prog) : List String :=
  p.stepsOf.filterMap Step.shotPath

/-- Outcome oracle for a run: the n-th fallible call of the run either
succeeds (none) or raises the given exception. -/
def Oracle := Nat → Option String

/-- Result of running a program: the trace of successfully executed steps in
order, the next oracle index, and the exception propagating out, if any. -/
structure RunRes where
  trace : List Step
  next : Nat
  result : Option String
deriving DecidableEq

/-- Interpreter: runs a program against an oracle. A fallible step consults
the oracle at the current index and either executes (entering the trace) or
raises; sequencing short-circuits on an exception; a finally block always runs
its cleanup, whose own exception replaces the body's; an except block runs its
handler on any exception of the body, after which the handler's own exception,
the re-raised original, or nothing propagates; raise propagates its message.
This mirrors Python exception semantics for the constructs the scripts use. -/
def execP (orc : Oracle) : Prog → Nat → RunRes
  | .skip, i => ⟨[], i, none⟩
  | .act s, i =>
    if s.fallible then
      match orc i with
      | some e => ⟨[], i + 1, some e⟩
      | none => ⟨[s], i + 1, none⟩
    else ⟨[s], i, none⟩
  | .seq p q, i =>
    let r1 := execP orc p i
    match r1.result with
    | none =>
      let r2 := execP orc q r1.next
      ⟨r1.trace ++ r2.trace, r2.next, r2.result⟩
    | some e => ⟨r1.trace, r1.next, some e⟩
  | .branch c p q, i => if c then execP orc p i else execP orc q i
  | .tryFinally p c, i =>
    let r1 := execP orc p i
    let r2 := execP orc c r1.next
    match r2.result with
    | none => ⟨r1.trace ++ r2.trace, r2.next, r1.result⟩
    | some e2 => ⟨r1.trace ++ r2.trace, r2.next, some e2⟩
  | .tryCatch p h reraise, i =>
    let r1 := execP orc p i
    match r1.result with
    | none => r1
    | some e =>
      let r2 := execP orc h r1.next
      match r2.result with
      | none => ⟨r1.trace ++ r2.trace, r2.next, if reraise then some e else none⟩
      | some e2 => ⟨r1.trace ++ r2.trace, r2.next, some e2⟩
  | .raiseErr m, i => ⟨[], i, some m⟩

/-- Oracle under which every browser call succeeds. -/
def allOk : Oracle := fun _ => none

namespace VerifyFinal

/-- Straight-line body of run_verification in verify_final.py: register with a
generated identity, wait for the redirect to login, log in, wait for the
redirect to dashboard, assert the dashboard marker, screenshot, close. -/
def steps (env : String → Option String) (t : Nat) : List Step :=
  [.launch, .newPage,
   .goto (getBaseUrl env ++ "/register"),
   .fill "Name" (mkIdentity t).name,
   .fill "Email" (mkIdentity t).email,
   .fill "Password" (mkIdentity t).password,
   .click "button" "Create account",
   .expectUrl (getBaseUrl env ++ "/login") (some 15000),
   .printMsg "Registration successful, redirected to login.",
   .fill "Email" (mkIdentity t).email,
   .fill "Password" (mkIdentity t).password,
   .click "button" "Sign in",
   .expectUrl (getBaseUrl env ++ "/dashboard") (some 15000),
   .printMsg "Login successful, redirected to dashboard.",
   .expectVisible "Contactos Totales" none,
   .printMsg "Dashboard content verified.",
   .screenshot "jules-scratch/verification/dashboard_after_login.png",
   .printMsg "Successfully logged in and verified dashboard.",
   .closeBrowser]

/-- Program of verify_final.py. -/
def prog (env : String → Option String) (t : Nat) : Prog :=
  Prog.acts (steps env t)

end VerifyFinal

namespace VerifyLogin

/-- Straight-line body of run_verification in verify_login.py: same flow as
verify_final.py with 10 s redirect timeouts and no progress prints. -/
def steps (env : String → Option String) (t : Nat) : List Step :=
  [.launch, .newPage,
   .goto (getBaseUrl env ++ "/register"),
   .fill "Name" (mkIdentity t).name,
   .fill "Email" (mkIdentity t).email,
   .fill "Password" (mkIdentity t).password,
   .click "button" "Create account",
   .expectUrl (getBaseUrl env ++ "/login") (some 10000),
   .fill "Email" (mkIdentity t).email,
   .fill "Password" (mkIdentity t).password,
   .click "button" "Sign in",
   .expectUrl (getBaseUrl env ++ "/dashboard") (some 10000),
   .expectVisible "Contactos Totales" none,
   .screenshot "jules-scratch/verification/dashboard_after_login.png",
   .closeBrowser]

/-- Program of verify_login.py. -/
def prog (env : String → Option String) (t : Nat) : Prog :=
  Prog.acts (steps env t)

end VerifyLogin

namespace VerifyLoginV2

/-- Registration steps of verify_login_v2.py, before the guarded toast
check. -/
def preSteps (env : String → Option String) (t : Nat) : List Step :=
  [.launch, .newPage,
   .goto (getBaseUrl env ++ "/register"),
   .fill "Name" (mkIdentity t).name,
   .fill "Email" (mkIdentity t).email,
   .fill "Password" (mkIdentity t).password,
   .click "button" "Create account"]

/-- Body of the try block in verify_login_v2.py: wait for the success toast
(role status element filtered to the success message), then for the redirect
to login, then report. -/
def toastSteps (env : String → Option String) : List Step :=
  [.expectVisible "Registration successful!" (some 10000),
   .expectUrl (getBaseUrl env ++ "/login") (some 5000),
   .printMsg "Registration successful and redirected to login."]

/-- Handler of the except block in verify_login_v2.py: report to stderr, try
to collect and print the visible toast texts with any failure of that
collection itself caught and only logged, print the current URL; the caller
then re-raises the original exception. -/
def handlerProg : Prog :=
  .seq (.act (.printErr "Registration did not succeed as expected."))
    (.seq
      (.tryCatch
        (Prog.acts [.collectToasts, .printErr "Found toast messages:"])
        (.act (.printErr "Could not retrieve toast messages"))
        false)
      (.act (.printErr "Current URL")))

/-- Steps of verify_login_v2.py after the guarded region: log in, wait for the
dashboard, assert the marker, screenshot, report, close. -/
def postSteps (env : String → Option String) (t : Nat) : List Step :=
  [.fill "Email" (mkIdentity t).email,
   .fill "Password" (mkIdentity t).password,
   .click "button" "Sign in",
   .expectUrl (getBaseUrl env ++ "/dashboard") (some 10000),
   .expectVisible "Contactos Totales" none,
   .screenshot "jules-scratch/verification/dashboard_after_login.png",
   .printMsg "Successfully logged in and verified dashboard.",
   .closeBrowser]

/-- Program of verify_login_v2.py: registration, then the try/except guarded
toast-and-redirect check whose handler re-raises, then the login tail. -/
def prog (env : String → Option String) (t : Nat) : Prog :=
  .seq (Prog.acts (preSteps env t))
    (.seq (.tryCatch (Prog.acts (toastSteps env)) handlerProg true)
      (Prog.acts (postSteps env t)))

end VerifyLoginV2

namespace VerifyFlowBuilder

/-- Steps of run in verify_flow_builder.py up to the bounding-box reads; the
base URL is the hard-coded literal, no environment lookup is performed. -/
def preSteps : List Step :=
  [.launch, .newContext, .newPage,
   .goto "http://localhost:3000/login",
   .fill "Email" "test@test.com",
   .fill "Password" "password",
   .click "button" "Sign in",
   .expectUrl "http://localhost:3000/dashboard" none,
   .goto "http://localhost:3000/dashboard/flows",
   .click "button" "Crear flujo",
   .expectVisible "Nodos" none,
   .boundingBox "div[data-node-type=\x27message\x27]",
   .boundingBox ".react-flow__pane"]

/-- Drag-and-drop gesture performed when both bounding boxes were found. -/
def dragSteps : List Step :=
  [.mouseMove, .mouseDown, .mouseMove, .mouseUp]

/-- Tail of the try block: open the inspector on the new node, toggle the
switch, screenshot. -/
def postSteps : List Step :=
  [.clickSelector ".react-flow__node-message",
   .clickLabel "Use Template",
   .screenshot "jules-scratch/verification/verification.png"]

/-- Program of verify_flow_builder.py: the try body branches on whether both
bounding boxes were found (raising an explicit error otherwise), and the
finally clause closes the browser. -/
def prog (bounds : Bool) : Prog :=
  .tryFinally
    (.seq (Prog.acts preSteps)
      (.seq
        (.branch bounds (Prog.acts dragSteps)
          (.raiseErr "Could not find source or target for drag and drop"))
        (Prog.acts postSteps)))
    (.act .closeBrowser)

end VerifyFlowBuilder

namespace VerifySendMessageUi

/-- Steps of run_verification in verify_send_message_ui.py up to and including
the empty-state visibility check; localized labels, hard-coded base URL. -/
def preSteps (t : Nat) : List Step :=
  [.launch, .newContext, .newPage,
   .goto "http://localhost:3000/register",
   .fill "Nombre completo" (mkIdentityDot t).name,
   .fill "Correo electrónico" (mkIdentityDot t).email,
   .fill "Contraseña" (mkIdentityDot t).password,
   .fill "Confirmar contraseña" (mkIdentityDot t).password,
   .click "button" "Crear cuenta",
   .expectUrl "http://localhost:3000/login" (some 15000),
   .fill "Correo electrónico" (mkIdentityDot t).email,
   .fill "Contraseña" (mkIdentityDot t).password,
   .click "button" "Iniciar sesión",
   .expectUrl "http://localhost:3000/dashboard" (some 15000),
   .goto "http://localhost:3000/dashboard/contacts",
   .waitLoadState "networkidle" (some 15000),
   .isVisibleCheck "Aún no tienes contactos"]

/-- Contact-creation branch taken when the empty state is visible: open the
modal, fill it, save, wait for the modal to disappear, reload and wait for the
table. -/
def createSteps : List Step :=
  [.click "button" "Nuevo contacto",
   .expectVisible "Nuevo Contacto" none,
   .fill "Nombre y Apellido" "Test Contact",
   .fill "Teléfono" "1234567890",
   .click "button" "Guardar Contacto",
   .expectNotVisible "Nuevo Contacto" (some 10000),
   .reload,
   .waitLoadState "networkidle" (some 15000),
   .expectVisible "table" (some 10000)]

/-- Tail common to both branches: open the first contact link, wait for the
detail page, assert the send-message marker, screenshot. -/
def postSteps : List Step :=
  [.clickSelector "a[href^=\"/dashboard/contacts/\"]",
   .expectUrlStarts "http://localhost:3000/dashboard/contacts/" (some 15000),
   .expectVisible "Enviar mensaje directo" none,
   .screenshot "jules-scratch/verification/verification.png"]

/-- Program of verify_send_message_ui.py: the try body branches on the
empty-state check (creating a contact only in the empty state), both branches
continue into the common tail, and the finally clause closes the browser. -/
def prog (t : Nat) (emptyState : Bool) : Prog :=
  .tryFinally
    (.seq (Prog.acts (preSteps t))
      (.seq (.branch emptyState (Prog.acts createSteps) .skip)
        (Prog.acts postSteps)))
    (.act .closeBrowser)

end VerifySendMessageUi

/-- The five scenario scripts of the repository. -/
inductive Scen where
  | final
  | login
  | loginV2
  | flowBuilder
  | sendMessage
deriving DecidableEq

/-- Run inputs of a scenario: the process environment, the clock second read
by int(time.time()), and the resolved runtime conditions (whether both
drag-and-drop bounding boxes are found, whether the empty-contacts state is
visible). -/
structure Inputs where
  env : String → Option String
  t : Nat
  bounds : Bool
  emptyState : Bool

/-- Program of each scenario at the given run inputs. -/
def scenProg (s : Scen) (inp : Inputs) : Prog :=
  match s with
  | .final => VerifyFinal.prog inp.env inp.t
  | .login => VerifyLogin.prog inp.env inp.t
  | .loginV2 => VerifyLoginV2.prog inp.env inp.t
  | .flowBuilder => VerifyFlowBuilder.prog inp.bounds
  | .sendMessage => VerifySendMessageUi.prog inp.t inp.emptyState

/-- A full scenario run: every script executes inside a
with sync_playwright() as p: scope; Python runs the context manager's exit on
every path out of the block, and sync_playwright's exit stops the driver,
closing every browser it launched. That scope is the tryFinally wrapper with
the stopPlaywright cleanup action. -/
def runScen (s : Scen) (inp : Inputs) (orc : Oracle) : RunRes :=
  execP orc (.tryFinally (scenProg s inp) (.act .stopPlaywright)) 0

/-- Predicate singling out the screenshot step. -/
def notShot : Step → Bool
  | .screenshot _ => false
  | _ => true

/-- Straight-line step list of a scenario at resolved inputs, in program
order: the body steps that execute when no call fails (handler steps excluded,
branches resolved by the inputs, the final browser.close of the try/finally
scripts excluded). -/
def linSteps (s : Scen) (inp : Inputs) : List Step :=
  match s with
  | .final => VerifyFinal.steps inp.env inp.t
  | .login => VerifyLogin.steps inp.env inp.t
  | .loginV2 =>
    VerifyLoginV2.preSteps inp.env inp.t ++
      (VerifyLoginV2.toastSteps inp.env ++ VerifyLoginV2.postSteps inp.env inp.t)
  | .flowBuilder =>
    VerifyFlowBuilder.preSteps ++
      ((if inp.bounds then VerifyFlowBuilder.dragSteps else []) ++
        VerifyFlowBuilder.postSteps)
  | .sendMessage =>
    VerifySendMessageUi.preSteps inp.t ++
      ((if inp.emptyState then VerifySendMessageUi.createSteps else []) ++
        VerifySendMessageUi.postSteps)

/-- Steps of a scenario that precede its screenshot in program order. -/
def preShot (s : Scen) (inp : Inputs) : List Step :=
  (linSteps s inp).takeWhile notShot

/-- Boolean check that the url u lives under the origin b, compared on the
underlying character lists. -/
def urlHasOrigin (b u : String) : Bool :=
  b.data.isPrefixOf u.data

/-- Test identity generated by each scenario: the three run_verification
registration scripts share one generator, verify_send_message_ui.py uses the
dotted email variant, and verify_flow_builder.py generates no identity (it
logs in with a hard-coded account). -/
def identityOf : Scen → Nat → Option Identity
  | .final, t => some (mkIdentity t)
  | .login, t => some (mkIdentity t)
  | .loginV2, t => some (mkIdentity t)
  | .sendMessage, t => some (mkIdentityDot t)
  | .flowBuilder, _ => none

/-- Environment with no BASE_URL binding. -/
def envEmpty : String → Option String := fun _ => none

/-- Environment binding BASE_URL to a non-default origin. -/
def envOther : String → Option String :=
  fun k => if k = "BASE_URL" then some "http://other.example" else none

/-- Concrete run inputs used by witnesses: empty environment, clock second 0,
both bounding boxes found, empty-contacts state visible. -/
def inputs0 : Inputs := ⟨envEmpty, 0, true, true⟩

/-- Concrete run inputs with BASE_URL bound to a non-default origin. -/
def inputsOther : Inputs := ⟨envOther, 0, true, true⟩

/-! Generic facts about the interpreter. -/

theorem execP_seq_def (orc : Oracle) (p q : Prog) (i : Nat) :
    execP orc (.seq p q) i =
      match (execP orc p i).result with
      | none =>
        ⟨(execP orc p i).trace ++ (execP orc q (execP orc p i).next).trace,
         (execP orc q (execP orc p i).next).next,
         (execP orc q (execP orc p i).next).result⟩
      | some e => ⟨(execP orc p i).trace, (execP orc p i).next, some e⟩ := by
  rfl

theorem execP_tryFinally_trace (orc : Oracle) (p c : Prog) (i : Nat) :
    (execP orc (.tryFinally p c) i).trace =
      (execP orc p i).trace ++ (execP orc c (execP orc p i).next).trace := by
  cases h : (execP orc c (execP orc p i).next).result <;>
    simp [execP, h]

theorem runScen_eq (s : Scen) (inp : Inputs) (orc : Oracle) :
    runScen s inp orc =
      ⟨(execP orc (scenProg s inp) 0).trace ++ [Step.stopPlaywright],
       (execP orc (scenProg s inp) 0).next,
       (execP orc (scenProg s inp) 0).result⟩ := by
  simp [runScen, execP, Step.fallible]

theorem execP_seq_assoc (orc : Oracle) (p q r : Prog) (i : Nat) :
    execP orc (.seq (.seq p q) r) i = execP orc (.seq p (.seq q r)) i := by
  cases hp : (execP orc p i).result <;>
    cases hq : (execP orc q (execP orc p i).next).result <;>
      simp [execP, hp, hq, List.append_assoc]

theorem execP_seq_skip (orc : Oracle) (q : Prog) (i : Nat) :
    execP orc (.seq .skip q) i = execP orc q i := by
  cases h : execP orc q i with
  | mk tr nx rs => simp [execP, h]

theorem execP_seq_congr_right (orc : Oracle) (p q q' : Prog) (i : Nat)
    (h : ∀ j, execP orc q j = execP orc q' j) :
    execP orc (.seq p q) i = execP orc (.seq p q') i := by
  cases hp : (execP orc p i).result <;> simp [execP_seq_def, hp, h]

theorem execP_acts_append (orc : Oracle) (a b : List Step) (i : Nat) :
    execP orc (Prog.acts (a ++ b)) i =
      execP orc (.seq (Prog.acts a) (Prog.acts b)) i := by
  induction a generalizing i with
  | nil => exact (execP_seq_skip orc (Prog.acts b) i).symm
  | cons s r ih =>
    calc execP orc (Prog.acts (s :: r ++ b)) i
        = execP orc (.seq (.act s) (Prog.acts (r ++ b))) i := rfl
      _ = execP orc (.seq (.act s) (.seq (Prog.acts r) (Prog.acts b))) i :=
          execP_seq_congr_right orc _ _ _ i ih
      _ = execP orc (.seq (.seq (.act s) (Prog.acts r)) (Prog.acts b)) i :=
          (execP_seq_assoc orc _ _ _ i).symm

theorem execP_acts_take (orc : Oracle) (l : List Step) (i : Nat) :
    ∃ n, (execP orc (Prog.acts l) i).trace = l.take n := by
  induction l generalizing i with
  | nil => exact ⟨0, by simp [Prog.acts, execP]⟩
  | cons s r ih =>
    by_cases hf : s.fallible
    · cases ho : orc i with
      | some e => exact ⟨0, by simp [Prog.acts, execP, hf, ho]⟩
      | none =>
        obtain ⟨n, hn⟩ := ih (i + 1)
        exact ⟨n + 1, by simp [Prog.acts, execP, hf, ho, hn]⟩
    · obtain ⟨n, hn⟩ := ih i
      exact ⟨n + 1, by simp [Prog.acts, execP, hf, hn]⟩

theorem execP_acts_ok_trace (orc : Oracle) (l : List Step) (i : Nat)
    (h : (execP orc (Prog.acts l) i).result = none) :
    (execP orc (Prog.acts l) i).trace = l := by
  induction l generalizing i with
  | nil => simp [Prog.acts, execP]
  | cons s r ih =>
    by_cases hf : s.fallible
    · cases ho : orc i with
      | some e => simp [Prog.acts, execP, hf, ho] at h
      | none =>
        have h' : (execP orc (Prog.acts r) (i + 1)).result = none := by
          simpa [Prog.acts, execP, hf, ho] using h
        simp [Prog.acts, execP, hf, ho, ih _ h']
    · have h' : (execP orc (Prog.acts r) i).result = none := by
        simpa [Prog.acts, execP, hf] using h
      simp [Prog.acts, execP, hf, ih _ h']

theorem execP_acts_ok_next (orc : Oracle) (l : List Step) (i : Nat)
    (h : (execP orc (Prog.acts l) i).result = none) :
    (execP orc (Prog.acts l) i).next = i + l.countP Step.fallible := by
  induction l generalizing i with
  | nil => simp [Prog.acts, execP]
  | cons s r ih =>
    by_cases hf : s.fallible
    · cases ho : orc i with
      | some e => simp [Prog.acts, execP, hf, ho] at h
      | none =>
        have h' : (execP orc (Prog.acts r) (i + 1)).result = none := by
          simpa [Prog.acts, execP, hf, ho] using h
        simp [Prog.acts, execP, hf, ho, ih _ h', List.countP_cons]
        omega
    · have h' : (execP orc (Prog.acts r) i).result = none := by
        simpa [Prog.acts, execP, hf] using h
      simp [Prog.acts, execP, hf, ih _ h', List.countP_cons]

theorem execP_trace_subset (orc : Oracle) (p : Prog) (i : Nat) :
    (execP orc p i).trace ⊆ p.stepsOf := by
  induction p generalizing i with
  | skip => simp [execP, Prog.stepsOf]
  | act s =>
    by_cases hf : s.fallible
    · cases ho : orc i <;> simp [execP, hf, ho, Prog.stepsOf]
    · simp [execP, hf, Prog.stepsOf]
  | seq p q ihp ihq =>
    cases hp : (execP orc p i).result <;>
      simp [execP_seq_def, hp, Prog.stepsOf]
    · exact ⟨(ihp i).trans (List.subset_append_left _ _),
        (ihq _).trans (List.subset_append_right _ _)⟩
    · exact (ihp i).trans (List.subset_append_left _ _)
  | branch c p q ihp ihq =>
    cases c <;> simp [execP, Prog.stepsOf]
    · exact (ihq i).trans (List.subset_append_right _ _)
    · exact (ihp i).trans (List.subset_append_left _ _)
  | tryFinally p c ihp ihc =>
    rw [Prog.stepsOf]
    cases h : (execP orc c (execP orc p i).next).result <;>
      simp [execP, h] <;>
        exact ⟨(ihp i).trans (List.subset_append_left _ _),
          (ihc _).trans (List.subset_append_right _ _)⟩
  | tryCatch p hnd rr ihp ihh =>
    rw [Prog.stepsOf]
    cases hp : (execP orc p i).result with
    | none =>
      simp only [execP, hp]
      exact (ihp i).trans (List.subset_append_left _ _)
    | some e =>
      cases hh : (execP orc hnd (execP orc p i).next).result <;>
        simp [execP, hp, hh] <;>
          exact ⟨(ihp i).trans (List.subset_append_left _ _),
            (ihh _).trans (List.subset_append_right _ _)⟩
  | raiseErr m => simp [execP, Prog.stepsOf]

theorem execP_acts_allOk (l : List Step) (i : Nat) :
    execP allOk (Prog.acts l) i = ⟨l, i + l.countP Step.fallible, none⟩ := by
  induction l generalizing i with
  | nil => simp [Prog.acts, execP]
  | cons s r ih =>
    by_cases hf : s.fallible <;>
      simp [Prog.acts, execP, hf, allOk, ih, List.countP_cons] <;> omega

theorem mem_take_of_mem_takeWhile {l : List Step} {q : Step → Bool} {x : Step}
    {n : Nat} (hx : x ∈ l.take n) (hqx : q x = false) :
    ∀ y ∈ l.takeWhile q, y ∈ l.take n := by
  induction l generalizing n with
  | nil => simp at hx
  | cons a r ih =>
    cases n with
    | zero => simp at hx
    | succ m =>
      intro y hy
      cases hqa : q a with
      | false => simp [List.takeWhile_cons, hqa] at hy
      | true =>
        rw [List.takeWhile_cons, hqa] at hy
        rcases List.mem_cons.mp hy with rfl | hy'
        · simp [List.take_succ_cons]
        · have hx' : x ∈ r.take m := by
            rcases List.mem_cons.mp (by simpa [List.take_succ_cons] using hx) with rfl | h
            · rw [hqa] at hqx; cases hqx
            · exact h
          simpa [List.take_succ_cons] using Or.inr (ih hx' y hy')

/-! Injectivity of the decimal rendering used in the generated emails. -/

theorem digitChar_toNat_of_lt {d : Nat} (h : d < 10) :
    (Nat.digitChar d).toNat = 48 + d := by
  interval_cases d <;> rfl

theorem digitChar_inj_of_lt {a b : Nat} (ha : a < 10) (hb : b < 10)
    (h : Nat.digitChar a = Nat.digitChar b) : a = b := by
  have h2 := congrArg Char.toNat h
  rw [digitChar_toNat_of_lt ha, digitChar_toNat_of_lt hb] at h2
  omega

theorem map_digitChar_inj : ∀ {l1 l2 : List Nat},
    (∀ x ∈ l1, x < 10) → (∀ x ∈ l2, x < 10) →
    l1.map Nat.digitChar = l2.map Nat.digitChar → l1 = l2
  | [], [], _, _, _ => rfl
  | [], _ :: _, _, _, h => by simp at h
  | _ :: _, [], _, _, h => by simp at h
  | a :: l, b :: m, h1, h2, h => by
    simp only [List.map_cons, List.cons.injEq] at h
    have hab : a = b :=
      digitChar_inj_of_lt (h1 a (by simp)) (h2 b (by simp)) h.1
    have hlm : l = m :=
      map_digitChar_inj (fun x hx => h1 x (by simp [hx]))
        (fun x hx => h2 x (by simp [hx])) h.2
    rw [hab, hlm]

theorem toDigitsCore_eq_digits : ∀ (fuel n : Nat) (ds : List Char),
    n < fuel → 0 < n →
    Nat.toDigitsCore 10 fuel n ds =
      ((Nat.digits 10 n).map Nat.digitChar).reverse ++ ds := by
  intro fuel
  induction fuel with
  | zero => intro n ds h _; omega
  | succ f ih =>
    intro n ds hf hn
    rw [Nat.toDigitsCore]
    have hdig : Nat.digits 10 n = n % 10 :: Nat.digits 10 (n / 10) :=
      Nat.digits_def' (by norm_num) hn
    by_cases h10 : n / 10 = 0
    · rw [if_pos h10, hdig, h10]
      simp
    · have hlt : n / 10 < f := by
        have : n / 10 < n := Nat.div_lt_self hn (by norm_num)
        omega
      have hpos : 0 < n / 10 := Nat.pos_of_ne_zero h10
      rw [if_neg h10, ih (n / 10) (Nat.digitChar (n % 10) :: ds) hlt hpos, hdig]
      simp [List.append_assoc]

theorem toDigits_eq_digits (n : Nat) (hn : 0 < n) :
    Nat.toDigits 10 n = ((Nat.digits 10 n).map Nat.digitChar).reverse := by
  rw [Nat.toDigits, toDigitsCore_eq_digits (n + 1) n [] (by omega) hn,
    List.append_nil]

theorem digits_eq_zero_of_map_eq {n : Nat} (hn : 0 < n)
    (h : (['0'] : List Char) = ((Nat.digits 10 n).map Nat.digitChar).reverse) :
    False := by
  have h1 : ((Nat.digits 10 n).map Nat.digitChar).reverse.reverse =
      (['0'] : List Char).reverse := by rw [h]
  simp only [List.reverse_reverse] at h1
  have h2 : Nat.digits 10 n = [0] := by
    apply map_digitChar_inj
      (fun x hx => Nat.digits_lt_base (by norm_num) hx)
      (fun x hx => by simp at hx; omega)
    simpa using h1
  have h3 : Nat.ofDigits 10 (Nat.digits 10 n) = Nat.ofDigits 10 [0] := by
    rw [h2]
  rw [Nat.ofDigits_digits, Nat.ofDigits_singleton] at h3
  omega

theorem natRepr_inj {m n : Nat} (h : Nat.repr m = Nat.repr n) : m = n := by
  have hd : Nat.toDigits 10 m = Nat.toDigits 10 n := by
    have h2 := congrArg String.data h
    simpa [Nat.repr, List.asString] using h2
  rcases Nat.eq_zero_or_pos m with hm | hm
  · rcases Nat.eq_zero_or_pos n with hn | hn
    · rw [hm, hn]
    · subst hm
      rw [toDigits_eq_digits n hn] at hd
      exact absurd hd (fun h => digits_eq_zero_of_map_eq hn h)
  · rcases Nat.eq_zero_or_pos n with hn | hn
    · subst hn
      rw [toDigits_eq_digits m hm] at hd
      exact absurd hd.symm (fun h => digits_eq_zero_of_map_eq hm h)
    · rw [toDigits_eq_digits m hm, toDigits_eq_digits n hn] at hd
      have h1 : (Nat.digits 10 m).map Nat.digitChar =
          (Nat.digits 10 n).map Nat.digitChar := by
        have := congrArg List.reverse hd
        simpa using this
      have h2 : Nat.digits 10 m = Nat.digits 10 n :=
        map_digitChar_inj
          (fun x hx => Nat.digits_lt_base (by norm_num) hx)
          (fun x hx => Nat.digits_lt_base (by norm_num) hx) h1
      have h3 := congrArg (Nat.ofDigits 10) h2
      rwa [Nat.ofDigits_digits, Nat.ofDigits_digits] at h3

theorem affix_repr_inj (pre suf : String) {t1 t2 : Nat}
    (h : pre ++ Nat.repr t1 ++ suf = pre ++ Nat.repr t2 ++ suf) : t1 = t2 := by
  have hd := congrArg String.data h
  simp only [String.data_append] at hd
  have h1 := List.append_cancel_right hd
  have h2 := List.append_cancel_left h1
  exact natRepr_inj (String.ext h2)

/-! Claim theorems. -/

/-- Claim C1, counterexample: the claim that two runs started in the same
second still produce distinct emails is false on the code. The generated
email depends only on the clock second int(time.time()), so at second
1700000000 two runs produce the same email and the claimed instance (same
second implies distinct emails) fails. -/
theorem genEmail_same_second_collision :
    ¬ ((1700000000 : Nat) = 1700000000 →
      genEmail 1700000000 ≠ genEmail 1700000000) :=
  fun h => h rfl rfl

/-- Claim C1 (amended): the generated email is unique exactly at the
resolution of the clock second: for both email generators, two runs produce
the same email if and only if they read the same second. Emails are distinct
across different seconds, and runs started in the same second collide. -/
theorem genEmail_eq_iff (t1 t2 : Nat) :
    (genEmail t1 = genEmail t2 ↔ t1 = t2) ∧
    (genEmailDot t1 = genEmailDot t2 ↔ t1 = t2) := by
  constructor
  · constructor
    · intro h
      exact affix_repr_inj "test_user_" "@example.com" h
    · intro h; rw [h]
  · constructor
    · intro h
      exact affix_repr_inj "test.user." "@example.com" h
    · intro h; rw [h]

/-- Claim C2: every scenario run, whatever step fails (if any), ends with a
browser-releasing action: the final element of every trace is the
playwright-scope exit, which closes every browser the driver launched, so no
scenario terminates with the browser still open. -/
theorem browser_released_on_all_paths (s : Scen) (inp : Inputs) (orc : Oracle) :
    ∃ st, (runScen s inp orc).trace.getLast? = some st ∧
      st.closesBrowser = true := by
  refine ⟨Step.stopPlaywright, ?_, rfl⟩
  rw [runScen_eq]
  exact List.getLast?_concat _

/-- Claim C9: identity generation is deterministic in the clock second: equal
int(time.time()) readings give identical name, email and password, and the
name and password are the constants Test User and password123 across every
identity-generating scenario, so the email suffix is the only varying
component. -/
theorem identity_deterministic (s : Scen) (t1 t2 : Nat) (h : t1 = t2) :
    identityOf s t1 = identityOf s t2 ∧
    ∀ ident, identityOf s t1 = some ident →
      ident.name = "Test User" ∧ ident.password = "password123" := by
  subst h
  refine ⟨rfl, ?_⟩
  intro ident hid
  cases s <;> simp [identityOf] at hid <;>
    rw [← hid] <;> exact ⟨rfl, rfl⟩

/-- Witness for claim C9 at clock second 1700000000. -/
theorem identity_deterministic_witness :
    identityOf .final 1700000000 = identityOf .final 1700000000 ∧
    (mkIdentity 1700000000).name = "Test User" := by
  have h := identity_deterministic .final 1700000000 1700000000 rfl
  exact ⟨h.1, (h.2 (mkIdentity 1700000000) rfl).1⟩

theorem isPrefixOf_self_append (a b : List Char) :
    a.isPrefixOf (a ++ b) = true := by
  induction a with
  | nil => simp
  | cons c r ih => simp [List.isPrefixOf_cons₂, ih]

theorem urlHasOrigin_append (b p : String) : urlHasOrigin b (b ++ p) = true := by
  simp only [urlHasOrigin, String.data_append]
  exact isPrefixOf_self_append b.data p.data

/-- Claim C3, counterexample: with BASE_URL bound to http://other.example,
verify_flow_builder.py still navigates to http://localhost:3000/login; its
target origin is not taken from the BASE_URL environment variable. -/
theorem base_url_ignored_counterexample :
    getBaseUrl envOther = "http://other.example" ∧
    "http://localhost:3000/login" ∈
      (scenProg .flowBuilder ⟨envOther, 0, true, true⟩).navUrls ∧
    urlHasOrigin (getBaseUrl envOther) "http://localhost:3000/login" = false := by
  refine ⟨by decide, by decide, by decide⟩

/-- Claim C3 (amended): the three run_verification registration scenarios
derive every navigation URL from the BASE_URL environment lookup with default
http://localhost:3000, while verify_flow_builder.py and
verify_send_message_ui.py hard-code the http://localhost:3000 origin in every
navigation and ignore BASE_URL entirely. -/
theorem base_url_scope (env : String → Option String) (t : Nat)
    (bounds emptyState : Bool) :
    (∀ u ∈ (scenProg .final ⟨env, t, bounds, emptyState⟩).navUrls,
      urlHasOrigin (getBaseUrl env) u = true) ∧
    (∀ u ∈ (scenProg .login ⟨env, t, bounds, emptyState⟩).navUrls,
      urlHasOrigin (getBaseUrl env) u = true) ∧
    (∀ u ∈ (scenProg .loginV2 ⟨env, t, bounds, emptyState⟩).navUrls,
      urlHasOrigin (getBaseUrl env) u = true) ∧
    (∀ u ∈ (scenProg .flowBuilder ⟨env, t, bounds, emptyState⟩).navUrls,
      urlHasOrigin "http://localhost:3000" u = true) ∧
    (∀ u ∈ (scenProg .sendMessage ⟨env, t, bounds, emptyState⟩).navUrls,
      urlHasOrigin "http://localhost:3000" u = true) := by
  refine ⟨?_, ?_, ?_, ?_, ?_⟩ <;> intro u hu
  · simp [scenProg, VerifyFinal.prog, VerifyFinal.steps, Prog.navUrls,
      Prog.stepsOf, Prog.acts, Step.navUrl] at hu
    rcases hu with rfl | rfl | rfl <;> exact urlHasOrigin_append _ _
  · simp [scenProg, VerifyLogin.prog, VerifyLogin.steps, Prog.navUrls,
      Prog.stepsOf, Prog.acts, Step.navUrl] at hu
    rcases hu with rfl | rfl | rfl <;> exact urlHasOrigin_append _ _
  · simp [scenProg, VerifyLoginV2.prog, VerifyLoginV2.preSteps,
      VerifyLoginV2.toastSteps, VerifyLoginV2.handlerProg,
      VerifyLoginV2.postSteps, Prog.navUrls, Prog.stepsOf, Prog.acts,
      Step.navUrl] at hu
    rcases hu with rfl | rfl | rfl <;> exact urlHasOrigin_append _ _
  · simp [scenProg, VerifyFlowBuilder.prog, VerifyFlowBuilder.preSteps,
      VerifyFlowBuilder.dragSteps, VerifyFlowBuilder.postSteps, Prog.navUrls,
      Prog.stepsOf, Prog.acts, Step.navUrl] at hu
    rcases hu with rfl | rfl | rfl <;> decide
  · simp [scenProg, VerifySendMessageUi.prog, VerifySendMessageUi.preSteps,
      VerifySendMessageUi.createSteps, VerifySendMessageUi.postSteps,
      Prog.navUrls, Prog.stepsOf, Prog.acts, Step.navUrl] at hu
    rcases hu with rfl | rfl | rfl | rfl | rfl | rfl <;> decide

/-- Witness for claim C3 at a concrete environment binding BASE_URL. -/
theorem base_url_scope_witness :
    urlHasOrigin (getBaseUrl envOther)
      (getBaseUrl envOther ++ "/register") = true :=
  (base_url_scope envOther 0 true true).1
    (getBaseUrl envOther ++ "/register") (by decide)

/-- Claim C7, counterexample: verify_final.py and verify_login.py are
distinct scenarios yet write their screenshots to the same fixed path, so
screenshot paths are not one-per-scenario. -/
theorem shot_path_shared_counterexample :
    Scen.final ≠ Scen.login ∧
    (scenProg .final inputs0).shotPaths = (scenProg .login inputs0).shotPaths ∧
    (scenProg .final inputs0).shotPaths =
      ["jules-scratch/verification/dashboard_after_login.png"] := by
  refine ⟨by decide, by decide, by decide⟩

/-- Claim C7 (amended): each scenario writes exactly one screenshot, to a
fixed relative path independent of the environment, the clock second and the
branch state, overwritten on each run; but the five paths are not pairwise
distinct: the three login-dashboard scenarios share
dashboard_after_login.png and the two remaining scenarios share
verification.png. -/
theorem shot_paths_fixed (env : String → Option String) (t : Nat)
    (bounds emptyState : Bool) :
    (scenProg .final ⟨env, t, bounds, emptyState⟩).shotPaths =
      ["jules-scratch/verification/dashboard_after_login.png"] ∧
    (scenProg .login ⟨env, t, bounds, emptyState⟩).shotPaths =
      ["jules-scratch/verification/dashboard_after_login.png"] ∧
    (scenProg .loginV2 ⟨env, t, bounds, emptyState⟩).shotPaths =
      ["jules-scratch/verification/dashboard_after_login.png"] ∧
    (scenProg .flowBuilder ⟨env, t, bounds, emptyState⟩).shotPaths =
      ["jules-scratch/verification/verification.png"] ∧
    (scenProg .sendMessage ⟨env, t, bounds, emptyState⟩).shotPaths =
      ["jules-scratch/verification/verification.png"] ∧
    ("jules-scratch/verification/dashboard_after_login.png" : String) ≠
      "jules-scratch/verification/verification.png" := by
  refine ⟨?_, ?_, ?_, ?_, ?_, by decide⟩ <;>
    simp [scenProg, VerifyFinal.prog, VerifyFinal.steps, VerifyLogin.prog,
      VerifyLogin.steps, VerifyLoginV2.prog, VerifyLoginV2.preSteps,
      VerifyLoginV2.toastSteps, VerifyLoginV2.handlerProg,
      VerifyLoginV2.postSteps, VerifyFlowBuilder.prog,
      VerifyFlowBuilder.preSteps, VerifyFlowBuilder.dragSteps,
      VerifyFlowBuilder.postSteps, VerifySendMessageUi.prog,
      VerifySendMessageUi.preSteps, VerifySendMessageUi.createSteps,
      VerifySendMessageUi.postSteps, Prog.shotPaths, Prog.stepsOf, Prog.acts,
      Step.shotPath]

/-- Claim C8, counterexample: the dashboard-redirect wait of
verify_flow_builder.py is a wait point carrying no explicit timeout (it uses
the library default), so not every wait point carries an explicit timeout. -/
theorem wait_without_timeout_counterexample :
    Step.isWait (Step.expectUrl "http://localhost:3000/dashboard" none) = true ∧
    Step.waitMs (Step.expectUrl "http://localhost:3000/dashboard" none) = none ∧
    Step.expectUrl "http://localhost:3000/dashboard" none ∈
      (scenProg .flowBuilder inputs0).stepsOf := by
  refine ⟨rfl, rfl, by decide⟩

/-- Claim C8 (amended): every wait point of every scenario that passes an
explicit timeout uses a value between 5000 and 15000 milliseconds inclusive;
wait points without an explicit timeout fall back to the library default. -/
theorem wait_timeouts_bounded (s : Scen) (inp : Inputs) :
    ∀ st ∈ (scenProg s inp).stepsOf, ∀ v, st.waitMs = some v →
      5000 ≤ v ∧ v ≤ 15000 := by
  intro st hst v hv
  have hchk : (scenProg s inp).stepsOf.all
      (fun x => match x.waitMs with
        | none => true
        | some w => decide (5000 ≤ w) && decide (w ≤ 15000)) = true := by
    cases s <;> rfl
  have hp := List.all_eq_true.mp hchk st hst
  rw [hv] at hp
  simpa using hp

/-- Witness for claim C8 at the network-idle wait of
verify_send_message_ui.py. -/
theorem wait_timeouts_bounded_witness : 5000 ≤ 15000 ∧ 15000 ≤ 15000 :=
  wait_timeouts_bounded .sendMessage inputs0
    (Step.waitLoadState "networkidle" (some 15000)) (by decide) 15000 rfl

theorem runScen_sendMessage_allOk (env : String → Option String) (t : Nat)
    (bounds emptyState : Bool) :
    (runScen .sendMessage ⟨env, t, bounds, emptyState⟩ allOk).trace =
      VerifySendMessageUi.preSteps t ++
        ((if emptyState then VerifySendMessageUi.createSteps else []) ++
          (VerifySendMessageUi.postSteps ++
            [Step.closeBrowser, Step.stopPlaywright])) := by
  rw [runScen_eq]
  simp only [scenProg]
  cases emptyState <;>
    simp [VerifySendMessageUi.prog, VerifySendMessageUi.preSteps,
      VerifySendMessageUi.createSteps, VerifySendMessageUi.postSteps,
      execP_tryFinally_trace, execP_seq_def, execP_acts_allOk, execP, allOk,
      Step.fallible, List.append_assoc]

/-- Claim C5: the contact-detail scenario converges from both backend states:
the contact-creation steps (opening the Nuevo contacto modal) run exactly
when the empty-contacts state was visible, and in either case the run
continues into the same common tail, opening the first contact link and
asserting the Enviar mensaje directo marker before the screenshot and the
cleanup. -/
theorem contact_detail_converges (env : String → Option String) (t : Nat)
    (bounds emptyState : Bool) :
    (Step.click "button" "Nuevo contacto" ∈
        (runScen .sendMessage ⟨env, t, bounds, emptyState⟩ allOk).trace ↔
      emptyState = true) ∧
    ∃ pre, (runScen .sendMessage ⟨env, t, bounds, emptyState⟩ allOk).trace =
      pre ++ (VerifySendMessageUi.postSteps ++
        [Step.closeBrowser, Step.stopPlaywright]) := by
  rw [runScen_sendMessage_allOk]
  constructor
  · cases emptyState <;>
      simp [VerifySendMessageUi.preSteps, VerifySendMessageUi.createSteps,
        VerifySendMessageUi.postSteps]
  · refine ⟨VerifySendMessageUi.preSteps t ++
      (if emptyState then VerifySendMessageUi.createSteps else []), ?_⟩
    rw [List.append_assoc]

theorem execP_seq_of_ok (orc : Oracle) (p q : Prog) (i j : Nat)
    (tr : List Step) (h : execP orc p i = ⟨tr, j, none⟩) :
    execP orc (.seq p q) i =
      ⟨tr ++ (execP orc q j).trace, (execP orc q j).next,
        (execP orc q j).result⟩ := by
  simp [execP_seq_def, h]

theorem execP_seq_of_err (orc : Oracle) (p q : Prog) (i j : Nat)
    (tr : List Step) (e : String) (h : execP orc p i = ⟨tr, j, some e⟩) :
    execP orc (.seq p q) i = ⟨tr, j, some e⟩ := by
  simp [execP_seq_def, h]

theorem execP_tryCatch_def (orc : Oracle) (p hnd : Prog) (rr : Bool)
    (i : Nat) :
    execP orc (.tryCatch p hnd rr) i =
      match (execP orc p i).result with
      | none => execP orc p i
      | some e =>
        match (execP orc hnd ((execP orc p i).next)).result with
        | none =>
          ⟨(execP orc p i).trace ++ (execP orc hnd ((execP orc p i).next)).trace,
           (execP orc hnd ((execP orc p i).next)).next,
           if rr then some e else none⟩
        | some e2 =>
          ⟨(execP orc p i).trace ++ (execP orc hnd ((execP orc p i).next)).trace,
           (execP orc hnd ((execP orc p i).next)).next, some e2⟩ := by
  rfl

theorem execP_tryCatch_reraise (orc : Oracle) (p hnd : Prog) (i j k : Nat)
    (tr tr2 : List Step) (e : String)
    (hp : execP orc p i = ⟨tr, j, some e⟩)
    (hh : execP orc hnd j = ⟨tr2, k, none⟩) :
    execP orc (.tryCatch p hnd true) i = ⟨tr ++ tr2, k, some e⟩ := by
  simp [execP, hp, hh]

/-- Claim C4: in verify_login_v2.py, when the registration steps have
executed and the success toast is not observed within its timeout (the first
guarded call fails with the original exception e), the scenario fails with
exactly e before any login step is attempted: the Sign in click and the
screenshot never appear in the trace, whatever the diagnostic toast
collection in the handler does (both its outcomes are covered by the oracle
at index 8). -/
theorem toast_failure_aborts_before_login (env : String → Option String)
    (t : Nat) (bounds emptyState : Bool) (orc : Oracle) (e : String)
    (hpre : (execP orc (Prog.acts (VerifyLoginV2.preSteps env t)) 0).result =
      none)
    (htoast : orc 7 = some e) :
    (runScen .loginV2 ⟨env, t, bounds, emptyState⟩ orc).result = some e ∧
    Step.click "button" "Sign in" ∉
      (runScen .loginV2 ⟨env, t, bounds, emptyState⟩ orc).trace ∧
    ∀ pth, Step.screenshot pth ∉
      (runScen .loginV2 ⟨env, t, bounds, emptyState⟩ orc).trace := by
  have htr := execP_acts_ok_trace orc (VerifyLoginV2.preSteps env t) 0 hpre
  have hnx : (execP orc (Prog.acts (VerifyLoginV2.preSteps env t)) 0).next =
      7 := by
    rw [execP_acts_ok_next orc (VerifyLoginV2.preSteps env t) 0 hpre]
    rfl
  have heta : execP orc (Prog.acts (VerifyLoginV2.preSteps env t)) 0 =
      ⟨(execP orc (Prog.acts (VerifyLoginV2.preSteps env t)) 0).trace,
       (execP orc (Prog.acts (VerifyLoginV2.preSteps env t)) 0).next,
       (execP orc (Prog.acts (VerifyLoginV2.preSteps env t)) 0).result⟩ := rfl
  have hr1 : execP orc (Prog.acts (VerifyLoginV2.preSteps env t)) 0 =
      ⟨VerifyLoginV2.preSteps env t, 7, none⟩ := by
    rw [heta, htr, hnx, hpre]
  have htoastRun : execP orc (Prog.acts (VerifyLoginV2.toastSteps env)) 7 =
      ⟨[], 8, some e⟩ := by
    simp [VerifyLoginV2.toastSteps, Prog.acts, execP, Step.fallible, htoast]
  rcases h8 : orc 8 with _ | e2
  · have hhand : execP orc VerifyLoginV2.handlerProg 8 =
        ⟨[.printErr "Registration did not succeed as expected.",
          .collectToasts, .printErr "Found toast messages:",
          .printErr "Current URL"], 9, none⟩ := by
      simp [VerifyLoginV2.handlerProg, Prog.acts, execP, Step.fallible, h8]
    have hcatch := execP_tryCatch_reraise orc _ _ 7 8 9 _ _ e htoastRun hhand
    have hseq2 := execP_seq_of_err orc _
      (Prog.acts (VerifyLoginV2.postSteps env t)) 7 9 _ e hcatch
    have hbody := execP_seq_of_ok orc _
      (.seq (.tryCatch (Prog.acts (VerifyLoginV2.toastSteps env))
        VerifyLoginV2.handlerProg true)
        (Prog.acts (VerifyLoginV2.postSteps env t))) 0 7 _ hr1
    rw [hseq2] at hbody
    rw [runScen_eq]
    simp only [scenProg, VerifyLoginV2.prog]
    rw [hbody]
    refine ⟨rfl, ?_, ?_⟩
    · simp [VerifyLoginV2.preSteps]
    · intro pth
      simp [VerifyLoginV2.preSteps]
  · have hhand : execP orc VerifyLoginV2.handlerProg 8 =
        ⟨[.printErr "Registration did not succeed as expected.",
          .printErr "Could not retrieve toast messages",
          .printErr "Current URL"], 9, none⟩ := by
      simp [VerifyLoginV2.handlerProg, Prog.acts, execP, Step.fallible, h8]
    have hcatch := execP_tryCatch_reraise orc _ _ 7 8 9 _ _ e htoastRun hhand
    have hseq2 := execP_seq_of_err orc _
      (Prog.acts (VerifyLoginV2.postSteps env t)) 7 9 _ e hcatch
    have hbody := execP_seq_of_ok orc _
      (.seq (.tryCatch (Prog.acts (VerifyLoginV2.toastSteps env))
        VerifyLoginV2.handlerProg true)
        (Prog.acts (VerifyLoginV2.postSteps env t))) 0 7 _ hr1
    rw [hseq2] at hbody
    rw [runScen_eq]
    simp only [scenProg, VerifyLoginV2.prog]
    rw [hbody]
    refine ⟨rfl, ?_, ?_⟩
    · simp [VerifyLoginV2.preSteps]
    · intro pth
      simp [VerifyLoginV2.preSteps]

/-- Witness for claim C4: a concrete run of verify_login_v2.py whose oracle
fails exactly the toast wait, with every earlier call succeeding. -/
theorem toast_failure_aborts_before_login_witness :
    (runScen .loginV2 ⟨envEmpty, 0, true, true⟩
      (fun i => if i = 7 then some "TimeoutError" else none)).result =
        some "TimeoutError" ∧
    Step.click "button" "Sign in" ∉
      (runScen .loginV2 ⟨envEmpty, 0, true, true⟩
        (fun i => if i = 7 then some "TimeoutError" else none)).trace := by
  have h := toast_failure_aborts_before_login envEmpty 0 true true
    (fun i => if i = 7 then some "TimeoutError" else none) "TimeoutError"
    (by rfl) (by rfl)
  exact ⟨h.1, h.2.1⟩

/-- Claim C10: in the failure handler of verify_login_v2.py, the diagnostic
toast collection is guarded by its own inner try/except that only logs, so
the handler itself never raises, and the exception propagating out of the
guarded region is always the original registration failure, re-raised by the
bare raise, whatever happens during diagnostics. -/
theorem handler_preserves_original_exception (env : String → Option String)
    (orc : Oracle) (i : Nat) (e : String)
    (hp : (execP orc (Prog.acts (VerifyLoginV2.toastSteps env)) i).result =
      some e) :
    (execP orc VerifyLoginV2.handlerProg
      ((execP orc (Prog.acts (VerifyLoginV2.toastSteps env)) i).next)).result =
        none ∧
    (execP orc (.tryCatch (Prog.acts (VerifyLoginV2.toastSteps env))
      VerifyLoginV2.handlerProg true) i).result = some e := by
  have hh : ∀ j, (execP orc VerifyLoginV2.handlerProg j).result = none := by
    intro j
    rcases h : orc j with _ | e2 <;>
      simp [VerifyLoginV2.handlerProg, Prog.acts, execP, Step.fallible, h]
  refine ⟨hh _, ?_⟩
  rw [execP_tryCatch_def, hp, hh]
  simp

/-- Witness for claim C10: concrete oracle where the toast wait fails with
the original exception and the diagnostic toast collection itself fails too;
the original exception still propagates. -/
theorem handler_preserves_original_exception_witness :
    (execP (fun i => if i = 0 then some "Timeout" else some "CollectErr")
      (.tryCatch (Prog.acts (VerifyLoginV2.toastSteps envEmpty))
        VerifyLoginV2.handlerProg true) 0).result = some "Timeout" :=
  (handler_preserves_original_exception envEmpty
    (fun i => if i = 0 then some "Timeout" else some "CollectErr") 0 "Timeout"
    (by rfl)).2

theorem stepsOf_acts (l : List Step) : (Prog.acts l).stepsOf = l := by
  induction l with
  | nil => rfl
  | cons s r ih => simp [Prog.acts, Prog.stepsOf, ih]

theorem execP_tryCatch_reraise_ok (orc : Oracle) (p hnd : Prog) (i : Nat)
    (hr : (execP orc (.tryCatch p hnd true) i).result = none) :
    execP orc (.tryCatch p hnd true) i = execP orc p i ∧
      (execP orc p i).result = none := by
  cases hp : (execP orc p i).result with
  | none => exact ⟨by rw [execP_tryCatch_def, hp], rfl⟩
  | some e =>
    exfalso
    cases hh : (execP orc hnd ((execP orc p i).next)).result with
    | none => rw [execP_tryCatch_def, hp, hh] at hr; simp at hr
    | some e2 => rw [execP_tryCatch_def, hp, hh] at hr; simp at hr

theorem execP_branch_true (orc : Oracle) (p q : Prog) (i : Nat) :
    execP orc (.branch true p q) i = execP orc p i := by
  simp [execP]

theorem execP_branch_false (orc : Oracle) (p q : Prog) (i : Nat) :
    execP orc (.branch false p q) i = execP orc q i := by
  simp [execP]

theorem execP_seq_congr_left (orc : Oracle) (p p' q : Prog) (i : Nat)
    (h : ∀ j, execP orc p j = execP orc p' j) :
    execP orc (.seq p q) i = execP orc (.seq p' q) i := by
  rw [execP_seq_def, execP_seq_def, h i]

theorem shot_mem_linear (orc : Oracle) (l : List Step) (i : Nat) (pth : String)
    (hmem : Step.screenshot pth ∈ (execP orc (Prog.acts l) i).trace) :
    ∀ st ∈ l.takeWhile notShot, st ∈ (execP orc (Prog.acts l) i).trace := by
  obtain ⟨n, hn⟩ := execP_acts_take orc l i
  rw [hn] at hmem ⊢
  exact mem_take_of_mem_takeWhile hmem rfl

/-- Claim C6: the screenshot is captured only after every prior step of the
scenario succeeded: whenever a run's trace contains the screenshot, the trace
also contains every step that precedes the screenshot in the scenario's
program order; equivalently, a failure at any navigation, interaction or
assertion step before the screenshot aborts the run before the screenshot is
written, so no artifact is produced on early failure. -/
theorem screenshot_only_after_steps (s : Scen) (inp : Inputs) (orc : Oracle)
    (pth : String)
    (hmem : Step.screenshot pth ∈ (runScen s inp orc).trace) :
    ∀ st ∈ preShot s inp, st ∈ (runScen s inp orc).trace := by
  have hmem' : Step.screenshot pth ∈ (execP orc (scenProg s inp) 0).trace := by
    rw [runScen_eq] at hmem
    rcases List.mem_append.mp hmem with h | h
    · exact h
    · simp at h
  intro st hst
  rw [runScen_eq]
  refine List.mem_append_left _ ?_
  cases s with
  | final =>
    simp only [scenProg, VerifyFinal.prog] at hmem' ⊢
    exact shot_mem_linear orc _ 0 pth hmem' st
      (by simpa [preShot, linSteps] using hst)
  | login =>
    simp only [scenProg, VerifyLogin.prog] at hmem' ⊢
    exact shot_mem_linear orc _ 0 pth hmem' st
      (by simpa [preShot, linSteps] using hst)
  | loginV2 =>
    simp only [scenProg, VerifyLoginV2.prog] at hmem' ⊢
    simp only [preShot, linSteps] at hst
    have hpre_ns : ∀ a ∈ VerifyLoginV2.preSteps inp.env inp.t,
        notShot a = true := by
      intro a ha
      simp [VerifyLoginV2.preSteps] at ha
      rcases ha with rfl | rfl | rfl | rfl | rfl | rfl | rfl <;> rfl
    have htoast_ns : ∀ a ∈ VerifyLoginV2.toastSteps inp.env,
        notShot a = true := by
      intro a ha
      simp [VerifyLoginV2.toastSteps] at ha
      rcases ha with rfl | rfl | rfl <;> rfl
    rw [List.takeWhile_append_of_pos hpre_ns,
      List.takeWhile_append_of_pos htoast_ns] at hst
    cases hres1 : execP orc
        (Prog.acts (VerifyLoginV2.preSteps inp.env inp.t)) 0 with
    | mk tr1 j1 r1 =>
    cases r1 with
    | some e1 =>
      have hb := execP_seq_of_err orc _
        (.seq (.tryCatch (Prog.acts (VerifyLoginV2.toastSteps inp.env))
          VerifyLoginV2.handlerProg true)
          (Prog.acts (VerifyLoginV2.postSteps inp.env inp.t))) 0 j1 tr1 e1
        hres1
      rw [hb] at hmem'
      have hsub : tr1 ⊆ VerifyLoginV2.preSteps inp.env inp.t := by
        have h2 := execP_trace_subset orc
          (Prog.acts (VerifyLoginV2.preSteps inp.env inp.t)) 0
        rw [hres1, stepsOf_acts] at h2
        exact h2
      exact absurd (hsub hmem') (by simp [VerifyLoginV2.preSteps])
    | none =>
      have htr1 : tr1 = VerifyLoginV2.preSteps inp.env inp.t := by
        have h2 := execP_acts_ok_trace orc
          (VerifyLoginV2.preSteps inp.env inp.t) 0 (by rw [hres1])
        rwa [hres1] at h2
      subst htr1
      cases hres2 : execP orc
          (.tryCatch (Prog.acts (VerifyLoginV2.toastSteps inp.env))
            VerifyLoginV2.handlerProg true) j1 with
      | mk tr2 j2 r2 =>
      cases r2 with
      | some e2 =>
        have hb2 := execP_seq_of_err orc _
          (Prog.acts (VerifyLoginV2.postSteps inp.env inp.t)) j1 j2 tr2 e2
          hres2
        have hb := execP_seq_of_ok orc _
          (.seq (.tryCatch (Prog.acts (VerifyLoginV2.toastSteps inp.env))
            VerifyLoginV2.handlerProg true)
            (Prog.acts (VerifyLoginV2.postSteps inp.env inp.t))) 0 j1 _ hres1
        rw [hb2] at hb
        rw [hb] at hmem'
        have hsub : tr2 ⊆
            (Prog.acts (VerifyLoginV2.toastSteps inp.env)).stepsOf ++
              VerifyLoginV2.handlerProg.stepsOf := by
          have h2 := execP_trace_subset orc
            (.tryCatch (Prog.acts (VerifyLoginV2.toastSteps inp.env))
              VerifyLoginV2.handlerProg true) j1
          rw [hres2] at h2
          exact h2
        rcases List.mem_append.mp hmem' with h | h
        · exact absurd h (by simp [VerifyLoginV2.preSteps])
        · have h3 := hsub h
          rw [stepsOf_acts] at h3
          exact absurd h3 (by
            simp [VerifyLoginV2.toastSteps, VerifyLoginV2.handlerProg,
              Prog.stepsOf, Prog.acts])
      | none =>
        obtain ⟨heq, _⟩ := execP_tryCatch_reraise_ok orc
          (Prog.acts (VerifyLoginV2.toastSteps inp.env))
          VerifyLoginV2.handlerProg j1 (by rw [hres2])
        have htoastRes : execP orc
            (Prog.acts (VerifyLoginV2.toastSteps inp.env)) j1 =
              ⟨tr2, j2, none⟩ := by
          rw [← heq]
          exact hres2
        have htr2 : tr2 = VerifyLoginV2.toastSteps inp.env := by
          have h2 := execP_acts_ok_trace orc
            (VerifyLoginV2.toastSteps inp.env) j1 (by rw [htoastRes])
          rwa [htoastRes] at h2
        subst htr2
        have hb2 := execP_seq_of_ok orc _
          (Prog.acts (VerifyLoginV2.postSteps inp.env inp.t)) j1 j2 _ hres2
        have hb := execP_seq_of_ok orc _
          (.seq (.tryCatch (Prog.acts (VerifyLoginV2.toastSteps inp.env))
            VerifyLoginV2.handlerProg true)
            (Prog.acts (VerifyLoginV2.postSteps inp.env inp.t))) 0 j1 _ hres1
        obtain ⟨n, hn⟩ := execP_acts_take orc
          (VerifyLoginV2.postSteps inp.env inp.t) j2
        rw [hb2, hn] at hb
        rw [hb] at hmem' ⊢
        have hshot_post : Step.screenshot pth ∈
            (VerifyLoginV2.postSteps inp.env inp.t).take n := by
          rcases List.mem_append.mp hmem' with h | h
          · exact absurd h (by simp [VerifyLoginV2.preSteps])
          rcases List.mem_append.mp h with h2 | h2
          · exact absurd h2 (by simp [VerifyLoginV2.toastSteps])
          · exact h2
        rcases List.mem_append.mp hst with h | h
        · exact List.mem_append_left _ h
        rcases List.mem_append.mp h with h2 | h2
        · exact List.mem_append_right _ (List.mem_append_left _ h2)
        · exact List.mem_append_right _ (List.mem_append_right _
            (mem_take_of_mem_takeWhile hshot_post rfl st h2))
  | flowBuilder =>
    simp only [scenProg, VerifyFlowBuilder.prog] at hmem' ⊢
    simp only [preShot, linSteps] at hst
    rw [execP_tryFinally_trace] at hmem' ⊢
    have hclose : ∀ j, (execP orc (.act .closeBrowser) j).trace ⊆
        [Step.closeBrowser] := by
      intro j
      have h2 := execP_trace_subset orc (.act .closeBrowser) j
      simpa [Prog.stepsOf] using h2
    have hmem2 : Step.screenshot pth ∈ (execP orc
        (.seq (Prog.acts VerifyFlowBuilder.preSteps)
          (.seq (.branch inp.bounds (Prog.acts VerifyFlowBuilder.dragSteps)
            (.raiseErr "Could not find source or target for drag and drop"))
            (Prog.acts VerifyFlowBuilder.postSteps))) 0).trace := by
      rcases List.mem_append.mp hmem' with h | h
      · exact h
      · have h3 := hclose _ h
        simp at h3
    refine List.mem_append_left _ ?_
    cases hbounds : inp.bounds with
    | false =>
      exfalso
      rw [hbounds] at hmem2
      cases hres1 : execP orc (Prog.acts VerifyFlowBuilder.preSteps) 0 with
      | mk tr1 j1 r1 =>
      have hsub : tr1 ⊆ VerifyFlowBuilder.preSteps := by
        have h2 := execP_trace_subset orc
          (Prog.acts VerifyFlowBuilder.preSteps) 0
        rw [hres1, stepsOf_acts] at h2
        exact h2
      cases r1 with
      | some e1 =>
        have hb := execP_seq_of_err orc _
          (.seq (.branch false (Prog.acts VerifyFlowBuilder.dragSteps)
            (.raiseErr "Could not find source or target for drag and drop"))
            (Prog.acts VerifyFlowBuilder.postSteps)) 0 j1 tr1 e1 hres1
        rw [hb] at hmem2
        exact absurd (hsub hmem2) (by simp [VerifyFlowBuilder.preSteps])
      | none =>
        have hraise : execP orc
            (.seq (.branch false (Prog.acts VerifyFlowBuilder.dragSteps)
              (.raiseErr "Could not find source or target for drag and drop"))
              (Prog.acts VerifyFlowBuilder.postSteps)) j1 =
            ⟨[], j1, some "Could not find source or target for drag and drop"⟩ :=
          execP_seq_of_err orc _ _ j1 j1 [] _ rfl
        have hb := execP_seq_of_ok orc _
          (.seq (.branch false (Prog.acts VerifyFlowBuilder.dragSteps)
            (.raiseErr "Could not find source or target for drag and drop"))
            (Prog.acts VerifyFlowBuilder.postSteps)) 0 j1 tr1 hres1
        rw [hraise] at hb
        rw [hb] at hmem2
        have h3 : Step.screenshot pth ∈ tr1 := by simpa using hmem2
        exact absurd (hsub h3) (by simp [VerifyFlowBuilder.preSteps])
    | true =>
      rw [hbounds] at hmem2
      have hlin : execP orc
          (.seq (Prog.acts VerifyFlowBuilder.preSteps)
            (.seq (.branch true (Prog.acts VerifyFlowBuilder.dragSteps)
              (.raiseErr "Could not find source or target for drag and drop"))
              (Prog.acts VerifyFlowBuilder.postSteps))) 0 =
          execP orc (Prog.acts (VerifyFlowBuilder.preSteps ++
            (VerifyFlowBuilder.dragSteps ++ VerifyFlowBuilder.postSteps))) 0 := by
        rw [execP_acts_append]
        apply execP_seq_congr_right
        intro j
        rw [execP_acts_append]
        exact execP_seq_congr_left orc _ _ _ j
          (fun k => execP_branch_true orc _ _ k)
      rw [hlin] at hmem2 ⊢
      exact shot_mem_linear orc _ 0 pth hmem2 st (by simpa [hbounds] using hst)
  | sendMessage =>
    simp only [scenProg, VerifySendMessageUi.prog] at hmem' ⊢
    simp only [preShot, linSteps] at hst
    rw [execP_tryFinally_trace] at hmem' ⊢
    have hclose : ∀ j, (execP orc (.act .closeBrowser) j).trace ⊆
        [Step.closeBrowser] := by
      intro j
      have h2 := execP_trace_subset orc (.act .closeBrowser) j
      simpa [Prog.stepsOf] using h2
    have hmem2 : Step.screenshot pth ∈ (execP orc
        (.seq (Prog.acts (VerifySendMessageUi.preSteps inp.t))
          (.seq (.branch inp.emptyState
            (Prog.acts VerifySendMessageUi.createSteps) .skip)
            (Prog.acts VerifySendMessageUi.postSteps))) 0).trace := by
      rcases List.mem_append.mp hmem' with h | h
      · exact h
      · have h3 := hclose _ h
        simp at h3
    refine List.mem_append_left _ ?_
    cases hempty : inp.emptyState with
    | false =>
      rw [hempty] at hmem2
      have hlin : execP orc
          (.seq (Prog.acts (VerifySendMessageUi.preSteps inp.t))
            (.seq (.branch false (Prog.acts VerifySendMessageUi.createSteps)
              .skip) (Prog.acts VerifySendMessageUi.postSteps))) 0 =
          execP orc (Prog.acts (VerifySendMessageUi.preSteps inp.t ++
            VerifySendMessageUi.postSteps)) 0 := by
        rw [execP_acts_append]
        apply execP_seq_congr_right
        intro j
        calc execP orc (.seq (.branch false
                (Prog.acts VerifySendMessageUi.createSteps) .skip)
              (Prog.acts VerifySendMessageUi.postSteps)) j
            = execP orc (.seq .skip
                (Prog.acts VerifySendMessageUi.postSteps)) j :=
              execP_seq_congr_left orc _ _ _ j
                (fun k => execP_branch_false orc _ _ k)
          _ = execP orc (Prog.acts VerifySendMessageUi.postSteps) j :=
              execP_seq_skip orc _ j
      rw [hlin] at hmem2 ⊢
      exact shot_mem_linear orc _ 0 pth hmem2 st (by simpa [hempty] using hst)
    | true =>
      rw [hempty] at hmem2
      have hlin : execP orc
          (.seq (Prog.acts (VerifySendMessageUi.preSteps inp.t))
            (.seq (.branch true (Prog.acts VerifySendMessageUi.createSteps)
              .skip) (Prog.acts VerifySendMessageUi.postSteps))) 0 =
          execP orc (Prog.acts (VerifySendMessageUi.preSteps inp.t ++
            (VerifySendMessageUi.createSteps ++
              VerifySendMessageUi.postSteps))) 0 := by
        rw [execP_acts_append]
        apply execP_seq_congr_right
        intro j
        rw [execP_acts_append]
        exact execP_seq_congr_left orc _ _ _ j
          (fun k => execP_branch_true orc _ _ k)
      rw [hlin] at hmem2 ⊢
      exact shot_mem_linear orc _ 0 pth hmem2 st (by simpa [hempty] using hst)

/-- Witness for claim C6: a fully successful concrete run of verify_final.py
whose trace contains the screenshot, hence also the launch step that precedes
it in program order. -/
theorem screenshot_only_after_steps_witness :
    Step.screenshot "jules-scratch/verification/dashboard_after_login.png" ∈
      (runScen .final inputs0 allOk).trace ∧
    Step.launch ∈ (runScen .final inputs0 allOk).trace := by
  refine ⟨by decide, ?_⟩
  exact screenshot_only_after_steps .final inputs0 allOk
    "jules-scratch/verification/dashboard_after_login.png" (by decide)
    Step.launch (by decide)
